import Mathlib

/-!
Verification of the cybersec-web-hub repository: an Express + Mongoose
backend (`src/backend/server.js`) exposing a two-route article resource,
and a browser client (`src/unnamed/part_000`) that renders article cards
with a read-more toggle, HTML escaping, and a loading/empty/error/list
UI state machine.

The embedding models:
* the Mongoose `articleSchema` (trim setters, `required`, `maxlength`)
  and `save` as a validating append on a list-of-documents store,
* the two route handlers as pure functions from a database-availability
  flag, the current time, the store and the request body to a response
  envelope and the new store,
* the client card construction, the expand/collapse toggle, `escapeHtml`
  (via `div.textContent` / `div.innerHTML`, which escapes `&`, `<`, `>`
  and U+00A0 in text nodes), and the display-state transitions.
-/

namespace CybersecHub

/-- An article document as stored by the persistence layer.  `date` is a
timestamp (milliseconds since the epoch, as JS `Date.now()` yields). -/
structure Article where
  title : String
  content : String
  date : Int
deriving Repr, DecidableEq

/-- The characters JS `String.prototype.trim` removes (ECMAScript
WhiteSpace and LineTerminator): TAB, LF, VT, FF, CR, SP, NBSP, ZWNBSP,
the Zs space separators, LS and PS.  Mongoose's `trim: true` setter calls
JS `trim`. -/
def isJsWhitespace (c : Char) : Bool :=
  c = ' ' || c = '\t' || c = '\n' || c = '\r' ||
  c = Char.ofNat 0x0B || c = Char.ofNat 0x0C || c = Char.ofNat 0xA0 ||
  c = Char.ofNat 0xFEFF || c = Char.ofNat 0x1680 ||
  (0x2000 ≤ c.toNat && c.toNat ≤ 0x200A) ||
  c = Char.ofNat 0x2028 || c = Char.ofNat 0x2029 ||
  c = Char.ofNat 0x202F || c = Char.ofNat 0x205F || c = Char.ofNat 0x3000

/-- JS `trim` on a character list: drop whitespace from the front, then
from the back. -/
def trimChars (l : List Char) : List Char :=
  ((l.dropWhile isJsWhitespace).reverse.dropWhile isJsWhitespace).reverse

/-- JS `String.prototype.trim`, as applied by the schema's `trim: true`. -/
def jsTrim (s : String) : String :=
  String.mk (trimChars s.toList)

/-- The `trim: true` setters of `articleSchema` applied to a document:
both `title` and `content` are trimmed; `date` is untouched. -/
def applySchema (a : Article) : Article :=
  { a with title := jsTrim a.title, content := jsTrim a.content }

/-- `articleSchema` validation on the stored (already trimmed) document:
`required: true` rejects an empty string, and `maxlength: 200` bounds the
title length. -/
def schemaValid (doc : Article) : Bool :=
  doc.title ≠ "" && doc.content ≠ "" && decide (doc.title.length ≤ 200)

/-- `new Article({...}).save()`: apply the trim setters, validate, and on
success append the document to the collection.  `dbOk = false` models the
database connection failing, which also makes `save` reject.  Either kind
of rejection surfaces as a thrown error in the route handler. -/
def articleSave (dbOk : Bool) (store : List Article) (a : Article) :
    Except Unit (Article × List Article) :=
  let doc := applySchema a
  if dbOk && schemaValid doc then .ok (doc, store ++ [doc]) else .error ()

/-- `Article.find().sort({ date: -1 })`: all documents, ordered by `date`
descending. -/
def sortByDateDesc (store : List Article) : List Article :=
  store.mergeSort (fun a b => decide (b.date ≤ a.date))

/-- Response of `GET /api/articles`: HTTP status plus the JSON envelope
fields that the handler may set. -/
structure ListResponse where
  status : Nat
  success : Bool
  count : Option Nat
  data : Option (List Article)
  message : Option String
deriving Repr, DecidableEq

/-- The `GET /api/articles` handler (`server.js` lines 55-70): on success
a `{success, count, data}` envelope with the sorted documents; if the
persistence layer errs (`dbOk = false`), a 500 `{success:false, message}`
envelope.  Returns the (unchanged) store alongside the response. -/
def getArticlesHandler (dbOk : Bool) (store : List Article) :
    ListResponse × List Article :=
  if dbOk then
    let articles := sortByDateDesc store
    ({ status := 200, success := true, count := some articles.length,
       data := some articles, message := none }, store)
  else
    ({ status := 500, success := false, count := none, data := none,
       message := some "Server error while fetching articles" }, store)

/-- The JSON body of `POST /api/articles`: each field is absent or a
string. -/
structure CreateBody where
  title : Option String
  content : Option String
deriving Repr, DecidableEq

/-- JS falsiness of an optional string field: `!title` holds exactly when
the field is missing (`undefined`) or the empty string. -/
def isFalsy : Option String → Bool
  | none => true
  | some s => s = ""

/-- Response of `POST /api/articles`. -/
structure CreateResponse where
  status : Nat
  success : Bool
  message : Option String
  data : Option Article
deriving Repr, DecidableEq

/-- The document `new Article({ title, content })` builds from the
request body: `date` takes the schema default `Date.now` at construction
time.  (This is only consulted past the falsiness check, where both
fields are present; `getD ""` is a harmless total-function default.) -/
def requestDoc (now : Int) (body : CreateBody) : Article :=
  { title := body.title.getD "", content := body.content.getD "", date := now }

/-- The `POST /api/articles` handler (`server.js` lines 73-103):
`if (!title || !content)` yields 400; otherwise the document is built
with `date` defaulting to `Date.now` and saved; a successful save yields
201 with the saved record, a save error yields 500.  Returns the new
store alongside the response. -/
def postArticlesHandler (dbOk : Bool) (now : Int) (store : List Article)
    (body : CreateBody) : CreateResponse × List Article :=
  if isFalsy body.title || isFalsy body.content then
    ({ status := 400, success := false,
       message := some "Title and content are required", data := none }, store)
  else
    match articleSave dbOk store (requestDoc now body) with
    | .ok (saved, store₂) =>
        ({ status := 201, success := true,
           message := some "Article created successfully",
           data := some saved }, store₂)
    | .error _ =>
        ({ status := 500, success := false,
           message := some "Server error while creating article",
           data := none }, store)

/-! ## Client: HTML escaping and the DOM text model -/

/-- How serialising a text node (`div.textContent = s; div.innerHTML`)
escapes a single character: `&`, `<`, `>` and U+00A0 become entities. -/
def escapeChar (c : Char) : List Char :=
  if c = '&' then ['&', 'a', 'm', 'p', ';']
  else if c = '<' then ['&', 'l', 't', ';']
  else if c = '>' then ['&', 'g', 't', ';']
  else if c = Char.ofNat 0xA0 then ['&', 'n', 'b', 's', 'p', ';']
  else [c]

/-- The client's `escapeHtml` (part_000 lines 254-258). -/
def escapeHtml (s : String) : String :=
  String.mk (s.toList.flatMap escapeChar)

/-- Browser parsing of markup that contains no tags: named entities are
decoded back to characters, everything else is literal text.  This is the
inverse the browser applies when escaped text is assigned to
`innerHTML`. -/
def unescapeChars : List Char → List Char
  | [] => []
  | '&' :: 'a' :: 'm' :: 'p' :: ';' :: rest => '&' :: unescapeChars rest
  | '&' :: 'l' :: 't' :: ';' :: rest => '<' :: unescapeChars rest
  | '&' :: 'g' :: 't' :: ';' :: rest => '>' :: unescapeChars rest
  | '&' :: 'n' :: 'b' :: 's' :: 'p' :: ';' :: rest =>
      Char.ofNat 0xA0 :: unescapeChars rest
  | c :: rest => c :: unescapeChars rest

/-! ## Client: article cards and the read-more toggle -/

/-- JS `s.substring(0, n)`: the first `n` characters of `s` (all of `s`
when it is shorter). -/
def jsSubstring (s : String) (n : Nat) : String :=
  String.mk (s.toList.take n)

/-- `needsReadMore` (part_000 line 117): content longer than 200
characters gets the truncation treatment. -/
def needsReadMore (a : Article) : Bool :=
  decide (200 < a.content.length)

/-- `shortContent` (part_000 lines 118-120): the first 200 characters
followed by `"..."` when truncation applies, the content itself
otherwise. -/
def shortContent (a : Article) : String :=
  if needsReadMore a then jsSubstring a.content 200 ++ "..." else a.content

/-- The read-more button: its markup label and the `data-full-content`
attribute caching the escaped full content. -/
structure ReadMoreButton where
  label : String
  dataFullContent : String
deriving Repr, DecidableEq

/-- The `.article-content` div: the markup assigned to its `innerHTML`
(the escaped payload; surrounding template indentation is elided) and
whether it carries the `collapsed` class. -/
structure ContentDiv where
  html : String
  collapsed : Bool
deriving Repr, DecidableEq

/-- An article card as built by `createArticleCard`: the escaped title
markup, the content div, and the read-more button when present. -/
structure ArticleCard where
  titleHtml : String
  contentDiv : ContentDiv
  readMore : Option ReadMoreButton
deriving Repr, DecidableEq

/-- `createArticleCard` (part_000 lines 85-153): escapes the title and
the (possibly truncated) content into the card markup; when the content
is long, the div starts collapsed and a read-more button caches
`escapeHtml(article.content)` in `data-full-content`. -/
def createArticleCard (a : Article) : ArticleCard :=
  let need := needsReadMore a
  { titleHtml := escapeHtml a.title
  , contentDiv := { html := escapeHtml (shortContent a), collapsed := need }
  , readMore :=
      if need then
        some { label := "Read More", dataFullContent := escapeHtml a.content }
      else none }

/-- `toggleReadMore` (part_000 lines 159-180): when collapsed, assign the
cached `data-full-content` to the div's `innerHTML` and mark it expanded;
when expanded, assign `fullContent.substring(0, 200) + "..."` and mark it
collapsed.  Without a button the function is never invoked (the only
caller is the button's `onclick`). -/
def toggleReadMore (card : ArticleCard) : ArticleCard :=
  match card.readMore with
  | none => card
  | some btn =>
      if card.contentDiv.collapsed then
        { card with
          contentDiv := { html := btn.dataFullContent, collapsed := false }
          readMore := some { btn with label := "Read Less" } }
      else
        { card with
          contentDiv :=
            { html := jsSubstring btn.dataFullContent 200 ++ "...",
              collapsed := true }
          readMore := some { btn with label := "Read More" } }

/-- The text the browser renders for the content div: its `innerHTML`
markup with entities decoded. -/
def displayedText (d : ContentDiv) : String :=
  String.mk (unescapeChars d.html.toList)

/-! ## Client: UI display states -/

/-- Visibility of the four display states (each a DOM element whose
`style.display` the client sets). -/
structure UiState where
  loading : Bool
  articlesList : Bool
  emptyState : Bool
  errorState : Bool
deriving Repr, DecidableEq

/-- `hideAllStates` (part_000 lines 279-287). -/
def hideAllStates (_s : UiState) : UiState :=
  { loading := false, articlesList := false, emptyState := false,
    errorState := false }

/-- `showEmptyState` (part_000 lines 263-266). -/
def showEmptyState (s : UiState) : UiState :=
  { hideAllStates s with emptyState := true }

/-- `showErrorState` (part_000 lines 271-274). -/
def showErrorState (s : UiState) : UiState :=
  { hideAllStates s with errorState := true }

/-- `displayArticles` (part_000 lines 60-78): hide everything, show the
empty state for a missing or empty list, otherwise build one card per
article and show the grid. -/
def displayArticles (articles : List Article) (s : UiState) :
    UiState × List ArticleCard :=
  if articles.isEmpty then (showEmptyState (hideAllStates s), [])
  else ({ hideAllStates s with articlesList := true },
        articles.map createArticleCard)

/-- The outcome of the client's `fetch` of the article list: a network
error, or an HTTP response with its `ok` flag and parsed JSON body. -/
inductive FetchResult where
  | netError : FetchResult
  | response (ok : Bool) (success : Bool) (data : List Article) : FetchResult
deriving Repr, DecidableEq

/-- `loadArticles` (part_000 lines 31-54): a network error, a non-OK
status, or a `success:false` body all land in the catch, which shows the
empty state; a successful body is rendered with `displayArticles`. -/
def loadArticles (r : FetchResult) (s : UiState) :
    UiState × List ArticleCard :=
  match r with
  | .netError => (showEmptyState s, [])
  | .response ok success data =>
      if !ok then (showEmptyState s, [])
      else if success then displayArticles data s
      else (showEmptyState s, [])

/-- A fetch outcome that takes one of the three failure paths of
`loadArticles`. -/
def fetchFailed : FetchResult → Bool
  | .netError => true
  | .response ok success _ => !ok || !success

/-! ## Trimming lemmas

`jsTrim` is idempotent: the schema stores trimmed values, so re-trimming
a stored field changes nothing.  Proved via `dropWhile` facts. -/

theorem dropWhile_dropWhile_self {α : Type} (p : α → Bool) (l : List α) :
    (l.dropWhile p).dropWhile p = l.dropWhile p := by
  cases h : l.dropWhile p with
  | nil => simp
  | cons c t =>
      have hh := List.head?_dropWhile_not p l
      rw [h] at hh
      simp only [List.head?_cons] at hh
      simp [List.dropWhile_cons, hh]

theorem dropWhile_eq_self_of_head {α : Type} (p : α → Bool) (l : List α)
    (c : α) (hh : l.head? = some c) (hc : p c = false) :
    l.dropWhile p = l := by
  cases l with
  | nil => simp at hh
  | cons a t =>
      have ha : a = c := by simpa using hh
      subst ha
      simp [List.dropWhile_cons, hc]

theorem dropWhile_trimmed {α : Type} (p : α → Bool) (l : List α) :
    (((l.dropWhile p).reverse.dropWhile p).reverse).dropWhile p
      = ((l.dropWhile p).reverse.dropWhile p).reverse := by
  set m := l.dropWhile p with hm
  set r := m.reverse.dropWhile p with hr
  cases hg : r.getLast? with
  | none =>
      have hrnil : r = [] := by simpa using hg
      simp [hrnil]
  | some x =>
      obtain ⟨u, hu⟩ := @List.dropWhile_suffix _ m.reverse p
      rw [← hr] at hu
      have h1 : m.reverse.getLast? = some x := by
        rw [← hu, List.getLast?_append, hg]
        rfl
      have hmx : m.head? = some x := by
        rw [List.getLast?_reverse] at h1
        exact h1
      have hpx : p x = false := by
        have hh := List.head?_dropWhile_not p l
        rw [← hm, hmx] at hh
        simpa using hh
      refine dropWhile_eq_self_of_head p _ x ?_ hpx
      rw [List.head?_reverse]
      exact hg

theorem trimChars_idem (l : List Char) :
    trimChars (trimChars l) = trimChars l := by
  unfold trimChars
  rw [dropWhile_trimmed isJsWhitespace l, List.reverse_reverse,
    dropWhile_dropWhile_self]

theorem jsTrim_idem (s : String) : jsTrim (jsTrim s) = jsTrim s := by
  unfold jsTrim
  rw [show (String.mk (trimChars s.toList)).toList = trimChars s.toList from rfl,
    trimChars_idem]

/-- Unpacking a successful `save`: the stored document is the trimmed
one, it passed validation, and it was appended to the collection. -/
theorem articleSave_ok {dbOk : Bool} {store : List Article} {a saved : Article}
    {store₂ : List Article}
    (h : articleSave dbOk store a = .ok (saved, store₂)) :
    saved = applySchema a ∧ store₂ = store ++ [saved] ∧ dbOk = true ∧
      schemaValid (applySchema a) = true := by
  unfold articleSave at h
  simp only [] at h
  split at h
  case isTrue hcond =>
      injection h with h'
      injection h' with h₁ h₂
      rw [Bool.and_eq_true] at hcond
      rcases hcond with ⟨hdb, hval⟩
      exact ⟨h₁.symm, by rw [← h₂, h₁], hdb, hval⟩
  case isFalse => simp at h

/-! ## Backend claims -/

/-- C1: every POST /api/articles request whose body has a missing or
empty `title` or a missing or empty `content` gets a 400 response with
the `{success:false, message}` envelope, and the store is unchanged. -/
theorem post_missing_or_empty_field_yields_400 (dbOk : Bool) (now : Int)
    (store : List Article) (body : CreateBody)
    (h : isFalsy body.title = true ∨ isFalsy body.content = true) :
    postArticlesHandler dbOk now store body =
      ({ status := 400, success := false,
         message := some "Title and content are required", data := none },
       store) := by
  have hcond : (isFalsy body.title || isFalsy body.content) = true := by
    rcases h with h | h <;> simp [h]
  simp [postArticlesHandler, hcond]

/-- Witness for C1 at the concrete body `{title: "", content: "x"}`. -/
theorem post_missing_or_empty_field_yields_400_witness :
    (isFalsy (some "") = true ∨ isFalsy (some "x") = true) ∧
    postArticlesHandler true 0 [] { title := some "", content := some "x" } =
      ({ status := 400, success := false,
         message := some "Title and content are required", data := none },
       []) :=
  ⟨Or.inl (by decide),
   post_missing_or_empty_field_yields_400 true 0 []
     { title := some "", content := some "x" } (Or.inl (by decide))⟩

/-- C2: a POST /api/articles request with non-empty `title` and
non-empty `content` that the persistence layer accepts persists exactly
one new article (the store grows by exactly that record) whose `date` is
the server-assigned creation time `now`, and the response is 201 with an
envelope containing the saved record. -/
theorem post_valid_body_persists_and_returns_201 (dbOk : Bool) (now : Int)
    (store store₂ : List Article) (t c : String) (saved : Article)
    (ht : t ≠ "") (hc : c ≠ "")
    (hsave : articleSave dbOk store
        (requestDoc now { title := some t, content := some c })
        = .ok (saved, store₂)) :
    postArticlesHandler dbOk now store { title := some t, content := some c } =
      ({ status := 201, success := true,
         message := some "Article created successfully", data := some saved },
       store₂)
    ∧ store₂ = store ++ [saved] ∧ saved.date = now := by
  obtain ⟨hsaved, hstore, _, _⟩ := articleSave_ok hsave
  have hft : isFalsy (some t) = false := by simp [isFalsy, ht]
  have hfc : isFalsy (some c) = false := by simp [isFalsy, hc]
  refine ⟨?_, hstore, ?_⟩
  · simp [postArticlesHandler, hft, hfc, hsave]
  · rw [hsaved]
    rfl

/-- Witness for C2 at the concrete body `{title: "t", content: "c"}` on
the empty store. -/
theorem post_valid_body_persists_and_returns_201_witness :
    ("t" ≠ "" ∧ "c" ≠ "" ∧
     articleSave true [] (requestDoc 0 { title := some "t", content := some "c" })
       = .ok (⟨"t", "c", 0⟩, [⟨"t", "c", 0⟩])) ∧
    (postArticlesHandler true 0 [] { title := some "t", content := some "c" } =
       ({ status := 201, success := true,
          message := some "Article created successfully",
          data := some ⟨"t", "c", 0⟩ },
        [⟨"t", "c", 0⟩])
     ∧ [(⟨"t", "c", 0⟩ : Article)] = [] ++ [⟨"t", "c", 0⟩]
     ∧ (⟨"t", "c", 0⟩ : Article).date = 0) :=
  ⟨⟨by decide, by decide, by rfl⟩,
   post_valid_body_persists_and_returns_201 true 0 [] [⟨"t", "c", 0⟩]
     "t" "c" ⟨"t", "c", 0⟩ (by decide) (by decide) (by rfl)⟩

/-- The invariant of claim C3 on a stored article: title and content are
non-empty after trimming, and the title is at most 200 characters. -/
def articleInv (a : Article) : Prop :=
  jsTrim a.title ≠ "" ∧ jsTrim a.content ≠ "" ∧ a.title.length ≤ 200

/-- A document that passed schema validation satisfies the C3
invariant (using idempotence of `jsTrim`). -/
theorem articleInv_of_schemaValid (a : Article)
    (h : schemaValid (applySchema a) = true) : articleInv (applySchema a) := by
  unfold schemaValid at h
  rw [Bool.and_eq_true, Bool.and_eq_true] at h
  obtain ⟨⟨h₁, h₂⟩, h₃⟩ := h
  refine ⟨?_, ?_, by simpa using h₃⟩
  · show jsTrim (jsTrim a.title) ≠ ""
    rw [jsTrim_idem]
    simpa using h₁
  · show jsTrim (jsTrim a.content) ≠ ""
    rw [jsTrim_idem]
    simpa using h₂

/-- The create handler either leaves the store unchanged or appends a
single document satisfying the C3 invariant. -/
theorem postArticlesHandler_store_cases (dbOk : Bool) (now : Int)
    (store : List Article) (body : CreateBody) :
    (postArticlesHandler dbOk now store body).2 = store ∨
    ∃ saved, (postArticlesHandler dbOk now store body).2 = store ++ [saved]
      ∧ articleInv saved := by
  unfold postArticlesHandler
  split
  · left
    rfl
  · cases hs : articleSave dbOk store (requestDoc now body) with
    | error e =>
        left
        simp [hs]
    | ok p =>
        obtain ⟨saved, store₂⟩ := p
        obtain ⟨hsaved, hstore, _, hval⟩ := articleSave_ok hs
        right
        refine ⟨saved, by simp [hs, hstore], ?_⟩
        rw [hsaved]
        exact articleInv_of_schemaValid _ hval

/-- C3: assuming every stored article satisfies the invariant (non-empty
trimmed `title` and `content`, title at most 200 characters), the list
endpoint leaves the store unchanged, the create endpoint only adds
articles satisfying the invariant, and the invariant holds of every
article in the store after either operation. -/
theorem store_invariant_preserved (dbOk : Bool) (now : Int)
    (store : List Article) (body : CreateBody)
    (hstore : ∀ a ∈ store, articleInv a) :
    (getArticlesHandler dbOk store).2 = store ∧
    (∀ a ∈ (postArticlesHandler dbOk now store body).2,
       a ∈ store ∨ articleInv a) ∧
    (∀ a ∈ (postArticlesHandler dbOk now store body).2, articleInv a) := by
  have hcases := postArticlesHandler_store_cases dbOk now store body
  refine ⟨?_, ?_, ?_⟩
  · unfold getArticlesHandler
    split <;> rfl
  · intro a ha
    rcases hcases with h | ⟨saved, h, hinv⟩
    · rw [h] at ha
      exact Or.inl ha
    · rw [h] at ha
      rcases List.mem_append.mp ha with h' | h'
      · exact Or.inl h'
      · have haeq : a = saved := by simpa using h'
        rw [haeq]
        exact Or.inr hinv
  · intro a ha
    rcases hcases with h | ⟨saved, h, hinv⟩
    · rw [h] at ha
      exact hstore a ha
    · rw [h] at ha
      rcases List.mem_append.mp ha with h' | h'
      · exact hstore a h'
      · have haeq : a = saved := by simpa using h'
        rw [haeq]
        exact hinv

/-- Witness for C3 on the empty store with a concrete valid body. -/
theorem store_invariant_preserved_witness :
    (∀ a ∈ ([] : List Article), articleInv a) ∧
    ((getArticlesHandler true []).2 = [] ∧
     (∀ a ∈ (postArticlesHandler true 0 []
        { title := some "t", content := some "c" }).2,
        a ∈ ([] : List Article) ∨ articleInv a) ∧
     (∀ a ∈ (postArticlesHandler true 0 []
        { title := some "t", content := some "c" }).2, articleInv a)) :=
  ⟨by simp,
   store_invariant_preserved true 0 []
     { title := some "t", content := some "c" } (by simp)⟩

/-- C4: for every store, GET /api/articles answers the
`{success:true, count, data}` envelope where `data` is a permutation of
the stored articles (exactly the stored set) ordered by `date`
descending, and `count` equals the number of stored documents; the store
is not modified. -/
theorem get_articles_returns_sorted_envelope (store : List Article) :
    ∃ data,
      getArticlesHandler true store =
        ({ status := 200, success := true, count := some data.length,
           data := some data, message := none }, store) ∧
      data.Perm store ∧
      List.Pairwise (fun a b : Article => b.date ≤ a.date) data ∧
      data.length = store.length := by
  refine ⟨sortByDateDesc store, by rfl, List.mergeSort_perm store _, ?_,
    (List.mergeSort_perm store _).length_eq⟩
  have h := @List.sorted_mergeSort Article
    (fun a b : Article => decide (b.date ≤ a.date))
    (fun a b c hab hbc => by
      simp only [decide_eq_true_eq] at hab hbc ⊢
      exact le_trans hbc hab)
    (fun a b => by
      rcases le_total b.date a.date with h' | h' <;> simp [h'])
    store
  exact List.Pairwise.imp (fun hab => by simpa using hab) h

/-- C5: a persistence-layer error makes the list endpoint and the create
endpoint answer 500 with the `{success:false, message}` envelope, a
failing create stores nothing, and conversely a 500 arises exactly when
the persistence layer errs (the list's `find`, or the create's `save`
reached past validation). -/
theorem persistence_error_500_iff (dbOk : Bool) (now : Int)
    (store : List Article) (body : CreateBody) :
    ((getArticlesHandler dbOk store).1.status = 500 ↔ dbOk = false) ∧
    (dbOk = false →
      getArticlesHandler dbOk store =
        ({ status := 500, success := false, count := none, data := none,
           message := some "Server error while fetching articles" },
         store)) ∧
    ((postArticlesHandler dbOk now store body).1.status = 500 ↔
      ((isFalsy body.title || isFalsy body.content) = false ∧
       articleSave dbOk store (requestDoc now body) = .error ())) ∧
    ((isFalsy body.title || isFalsy body.content) = false →
      articleSave dbOk store (requestDoc now body) = .error () →
      postArticlesHandler dbOk now store body =
        ({ status := 500, success := false,
           message := some "Server error while creating article",
           data := none },
         store)) := by
  refine ⟨?_, ?_, ?_, ?_⟩
  · cases dbOk <;> simp [getArticlesHandler]
  · intro h
    rw [h]
    rfl
  · cases hcond : (isFalsy body.title || isFalsy body.content) with
    | true => simp [postArticlesHandler, hcond]
    | false =>
        cases hsave : articleSave dbOk store (requestDoc now body) with
        | ok p => simp [postArticlesHandler, hcond, hsave]
        | error e =>
            cases e
            simp [postArticlesHandler, hcond, hsave]
  · intro hcond hsave
    simp [postArticlesHandler, hcond, hsave]

/-- Witness for C5: a concrete failing fetch (`dbOk = false`) and a
concrete create on which `save` errs. -/
theorem persistence_error_500_iff_witness :
    ((false = false) ∧
     getArticlesHandler false [] =
       ({ status := 500, success := false, count := none, data := none,
          message := some "Server error while fetching articles" }, []) ∧
     (isFalsy (some "t") || isFalsy (some "c")) = false ∧
     articleSave false [] (requestDoc 0 { title := some "t", content := some "c" })
       = .error () ∧
     postArticlesHandler false 0 [] { title := some "t", content := some "c" } =
       ({ status := 500, success := false,
          message := some "Server error while creating article",
          data := none }, [])) :=
  ⟨rfl,
   (persistence_error_500_iff false 0 []
      { title := some "t", content := some "c" }).2.1 rfl,
   by decide,
   by rfl,
   (persistence_error_500_iff false 0 []
      { title := some "t", content := some "c" }).2.2.2 (by decide) (by rfl)⟩

/-! ## Escaping lemmas -/

set_option maxHeartbeats 1000000 in
/-- Decoding a cons whose head is not `&` is literal: every entity
pattern of `unescapeChars` starts with `&`. -/
theorem unescape_cons_ne (c : Char) (r : List Char) (h : c ≠ '&') :
    unescapeChars (c :: r) = c :: unescapeChars r := by
  rw [unescapeChars.eq_def]
  split <;> first | rfl | simp_all

/-- Decoding inverts the escaping of a single character. -/
theorem unescape_escapeChar (c : Char) (r : List Char) :
    unescapeChars (escapeChar c ++ r) = c :: unescapeChars r := by
  by_cases h₁ : c = '&'
  · subst h₁
    rfl
  by_cases h₂ : c = '<'
  · subst h₂
    rfl
  by_cases h₃ : c = '>'
  · subst h₃
    rfl
  by_cases h₄ : c = Char.ofNat 0xA0
  · subst h₄
    rfl
  have he : escapeChar c = [c] := by simp [escapeChar, h₁, h₂, h₃, h₄]
  rw [he, List.singleton_append]
  exact unescape_cons_ne c r h₁

/-- Decoding inverts escaping on character lists. -/
theorem unescape_escape_chars (l : List Char) :
    unescapeChars (l.flatMap escapeChar) = l := by
  induction l with
  | nil => rfl
  | cons c t ih => rw [List.flatMap_cons, unescape_escapeChar, ih]

/-- The browser renders `escapeHtml s` back as the text `s`. -/
theorem unescape_escapeHtml (s : String) :
    String.mk (unescapeChars (escapeHtml s).toList) = s := by
  rw [show (escapeHtml s).toList = s.toList.flatMap escapeChar from rfl,
    unescape_escape_chars]
  rfl

/-- A character that escaping leaves alone. -/
def htmlPlain (c : Char) : Prop :=
  c ≠ '&' ∧ c ≠ '<' ∧ c ≠ '>' ∧ c ≠ Char.ofNat 0xA0

instance (c : Char) : Decidable (htmlPlain c) := by
  unfold htmlPlain
  infer_instance

theorem escapeChar_eq_self {c : Char} (h : htmlPlain c) : escapeChar c = [c] := by
  obtain ⟨h₁, h₂, h₃, h₄⟩ := h
  simp [escapeChar, h₁, h₂, h₃, h₄]

/-- Escaping is the identity on strings of plain characters. -/
theorem escapeHtml_eq_self (s : String) (h : ∀ c ∈ s.toList, htmlPlain c) :
    escapeHtml s = s := by
  have hl : ∀ l : List Char, (∀ c ∈ l, htmlPlain c) → l.flatMap escapeChar = l := by
    intro l
    induction l with
    | nil => intro _; rfl
    | cons c t ih =>
        intro hct
        rw [List.flatMap_cons, escapeChar_eq_self (hct c (by simp)),
          List.singleton_append, ih (fun d hd => hct d (by simp [hd]))]
  show String.mk (s.toList.flatMap escapeChar) = s
  rw [hl s.toList h]
  rfl

/-- A string whose characters include no angle bracket: such markup can
never introduce an element, so no injection is possible. -/
def noAngle (s : String) : Prop :=
  ∀ c ∈ s.toList, c ≠ '<' ∧ c ≠ '>'

instance (s : String) : Decidable (noAngle s) := by
  unfold noAngle
  infer_instance

theorem escapeChar_no_angle (c d : Char) (hd : d ∈ escapeChar c) :
    d ≠ '<' ∧ d ≠ '>' := by
  by_cases h₁ : c = '&'
  · subst h₁
    simp [escapeChar] at hd
    rcases hd with rfl | rfl | rfl | rfl | rfl <;> exact ⟨by decide, by decide⟩
  by_cases h₂ : c = '<'
  · subst h₂
    simp [escapeChar] at hd
    rcases hd with rfl | rfl | rfl | rfl <;> exact ⟨by decide, by decide⟩
  by_cases h₃ : c = '>'
  · subst h₃
    simp [escapeChar] at hd
    rcases hd with rfl | rfl | rfl | rfl <;> exact ⟨by decide, by decide⟩
  by_cases h₄ : c = Char.ofNat 0xA0
  · subst h₄
    simp [escapeChar] at hd
    rcases hd with rfl | rfl | rfl | rfl | rfl | rfl <;> exact ⟨by decide, by decide⟩
  have he := @escapeChar_eq_self c ⟨h₁, h₂, h₃, h₄⟩
  rw [he] at hd
  have : d = c := by simpa using hd
  subst this
  exact ⟨h₂, h₃⟩

/-- The output of `escapeHtml` contains no angle bracket. -/
theorem escapeHtml_noAngle (s : String) : noAngle (escapeHtml s) := by
  intro d hd
  rw [show (escapeHtml s).toList = s.toList.flatMap escapeChar from rfl,
    List.mem_flatMap] at hd
  obtain ⟨c, _, hdm⟩ := hd
  exact escapeChar_no_angle c d hdm

theorem noAngle_jsSubstring (s : String) (n : Nat) (h : noAngle s) :
    noAngle (jsSubstring s n) := by
  intro d hd
  rw [show (jsSubstring s n).toList = s.toList.take n from rfl] at hd
  exact h d (List.take_subset n s.toList hd)

theorem noAngle_append (s t : String) (hs : noAngle s) (ht : noAngle t) :
    noAngle (s ++ t) := by
  intro d hd
  rw [show (s ++ t).toList = s.toList ++ t.toList from rfl,
    List.mem_append] at hd
  rcases hd with h | h
  · exact hs d h
  · exact ht d h

theorem noAngle_dots : noAngle "..." := by decide

/-! ## Client claims -/

/-- The spec's example request body: `{title:"Phishing 101", content:"A"*250}`. -/
def phishingBody : CreateBody :=
  { title := some "Phishing 101",
    content := some (String.mk (List.replicate 250 'A')) }

/-- The article the example request creates (with creation time 0). -/
def phishingArticle : Article :=
  { title := "Phishing 101", content := String.mk (List.replicate 250 'A'),
    date := 0 }

set_option maxRecDepth 10000 in
/-- C6: a card shows no read-more control exactly when the content is at
most 200 characters; above 200 the control is present and the initially
displayed text is the first 200 characters followed by `"..."`; and for
the example article (`title:"Phishing 101"`, content of 250 `'A'`s) the
list response contains that article with content length 250, whose
truncated display has length 203. -/
theorem read_more_truncation (a : Article) :
    ((createArticleCard a).readMore = none ↔ a.content.length ≤ 200) ∧
    (200 < a.content.length →
      ((createArticleCard a).readMore.isSome = true ∧
       displayedText (createArticleCard a).contentDiv
         = jsSubstring a.content 200 ++ "..." ∧
       (displayedText (createArticleCard a).contentDiv).length = 203)) ∧
    ((getArticlesHandler true (postArticlesHandler true 0 [] phishingBody).2).1.data
       = some [phishingArticle] ∧
     phishingArticle.content.length = 250 ∧
     (displayedText (createArticleCard phishingArticle).contentDiv).length
       = 203) := by
  refine ⟨?_, ?_, ?_, by decide, by decide⟩
  · by_cases h : 200 < a.content.length
    · have hn : needsReadMore a = true := by simpa [needsReadMore] using h
      simp [createArticleCard, hn]
      omega
    · have hn : needsReadMore a = false := by simpa [needsReadMore] using h
      simp [createArticleCard, hn]
      omega
  · intro h
    have hn : needsReadMore a = true := by simpa [needsReadMore] using h
    have hcard : createArticleCard a =
        { titleHtml := escapeHtml a.title
        , contentDiv := { html := escapeHtml (shortContent a), collapsed := true }
        , readMore := some { label := "Read More",
                             dataFullContent := escapeHtml a.content } } := by
      simp [createArticleCard, hn]
    have hshort : shortContent a = jsSubstring a.content 200 ++ "..." := by
      simp [shortContent, hn]
    have h1 : displayedText (createArticleCard a).contentDiv = shortContent a := by
      rw [hcard]
      exact unescape_escapeHtml (shortContent a)
    refine ⟨by rw [hcard]; rfl, by rw [h1, hshort], ?_⟩
    rw [h1, hshort]
    show (a.content.toList.take 200 ++ "...".toList).length = 203
    have hlen : a.content.toList.length = a.content.length := rfl
    rw [List.length_append, List.length_take, hlen]
    show 200 ⊓ a.content.length + 3 = 203
    omega
  · have hpost : (postArticlesHandler true 0 [] phishingBody).2
        = [phishingArticle] := by decide
    rw [hpost]
    simp [getArticlesHandler, sortByDateDesc]

set_option maxRecDepth 10000 in
/-- Witness for C6 at the example article itself. -/
theorem read_more_truncation_witness :
    200 < phishingArticle.content.length ∧
    ((createArticleCard phishingArticle).readMore.isSome = true ∧
     displayedText (createArticleCard phishingArticle).contentDiv
       = jsSubstring phishingArticle.content 200 ++ "..." ∧
     (displayedText (createArticleCard phishingArticle).contentDiv).length
       = 203) :=
  ⟨by decide, (read_more_truncation phishingArticle).2.1 (by decide)⟩

/-- An article whose content is 201 ampersands: its escaped content is
`"&amp;"` repeated 201 times, whose first 200 characters are 40 whole
`"&amp;"` entities. -/
def ampArticle : Article :=
  { title := "t", content := String.mk (List.replicate 201 '&'), date := 0 }

set_option maxRecDepth 100000 in
/-- C7 counterexample: for the article of 201 ampersands, expanding and
collapsing again does not restore the truncated display shown before
expansion.  The collapse branch truncates the cached escaped content, so
it displays 40 ampersands plus `"..."` (43 characters) instead of the
original 200 ampersands plus `"..."` (203 characters). -/
theorem toggle_roundtrip_counterexample :
    displayedText
        ((toggleReadMore (toggleReadMore (createArticleCard ampArticle))).contentDiv)
      ≠ displayedText ((createArticleCard ampArticle).contentDiv) := by
  decide

/-- An article of 201 `'B'`s: long content with no escapable character. -/
def plainLongArticle : Article :=
  { title := "t", content := String.mk (List.replicate 201 'B'), date := 0 }

/-- C7 amended: for an article whose content exceeds 200 characters,
expanding displays the full cached content; collapsing again displays
the first 200 characters of the HTML-ESCAPED full content followed by
`"..."` — which equals the truncated display shown before expansion
whenever the content contains no escapable character, but not in
general — and alternating the toggle never loses or alters the cached
full content on the element. -/
theorem toggle_expand_collapse_amended (a : Article)
    (h : 200 < a.content.length) :
    displayedText ((toggleReadMore (createArticleCard a)).contentDiv)
      = a.content ∧
    ((toggleReadMore (toggleReadMore (createArticleCard a))).contentDiv).html
      = jsSubstring (escapeHtml a.content) 200 ++ "..." ∧
    ((toggleReadMore (toggleReadMore (createArticleCard a))).contentDiv).collapsed
      = true ∧
    ((∀ c ∈ a.content.toList, htmlPlain c) →
      (toggleReadMore (toggleReadMore (createArticleCard a))).contentDiv
        = (createArticleCard a).contentDiv) ∧
    (∀ n, (toggleReadMore^[n] (createArticleCard a)).readMore.map
        (fun b => b.dataFullContent) = some (escapeHtml a.content)) := by
  have hn : needsReadMore a = true := by simpa [needsReadMore] using h
  have hcard : createArticleCard a =
      { titleHtml := escapeHtml a.title
      , contentDiv := { html := escapeHtml (shortContent a), collapsed := true }
      , readMore := some { label := "Read More",
                           dataFullContent := escapeHtml a.content } } := by
    simp [createArticleCard, hn]
  refine ⟨?_, ?_, ?_, ?_, ?_⟩
  · rw [hcard]
    exact unescape_escapeHtml a.content
  · rw [hcard]
    rfl
  · rw [hcard]
    rfl
  · intro hplain
    have hesc : escapeHtml a.content = a.content := escapeHtml_eq_self _ hplain
    have hshort : shortContent a = jsSubstring a.content 200 ++ "..." := by
      simp [shortContent, hn]
    have hplain₂ : ∀ c ∈ (shortContent a).toList, htmlPlain c := by
      rw [hshort]
      intro c hc
      rw [show (jsSubstring a.content 200 ++ "...").toList
          = a.content.toList.take 200 ++ "...".toList from rfl,
        List.mem_append] at hc
      rcases hc with hc | hc
      · exact hplain c (List.take_subset 200 a.content.toList hc)
      · have : c = '.' := by simpa using hc
        rw [this]
        decide
    have hesc₂ : escapeHtml (shortContent a) = shortContent a :=
      escapeHtml_eq_self _ hplain₂
    rw [hcard]
    show ContentDiv.mk (jsSubstring (escapeHtml a.content) 200 ++ "...") true
      = ContentDiv.mk (escapeHtml (shortContent a)) true
    rw [hesc, hesc₂, hshort]
  · intro n
    induction n with
    | zero =>
        rw [hcard]
        rfl
    | succ n ih =>
        rw [Function.iterate_succ_apply']
        cases hb : (toggleReadMore^[n] (createArticleCard a)).readMore with
        | none =>
            rw [hb] at ih
            simp at ih
        | some btn =>
            have hbtn : btn.dataFullContent = escapeHtml a.content := by
              rw [hb] at ih
              simpa using ih
            cases hcol : ((toggleReadMore^[n] (createArticleCard a)).contentDiv).collapsed <;>
              simp [toggleReadMore, hb, hcol, hbtn]

set_option maxRecDepth 10000 in
/-- Witness for C7's amended claim at the article of 201 `'B'`s. -/
theorem toggle_expand_collapse_amended_witness :
    (200 < plainLongArticle.content.length ∧
     (∀ c ∈ plainLongArticle.content.toList, htmlPlain c)) ∧
    (displayedText ((toggleReadMore (createArticleCard plainLongArticle)).contentDiv)
       = plainLongArticle.content ∧
     (toggleReadMore (toggleReadMore (createArticleCard plainLongArticle))).contentDiv
       = (createArticleCard plainLongArticle).contentDiv) :=
  ⟨⟨by decide, by decide⟩,
   (toggle_expand_collapse_amended plainLongArticle (by decide)).1,
   (toggle_expand_collapse_amended plainLongArticle (by decide)).2.2.2.1
     (by decide)⟩

/-- The C8 safety predicate on a card: neither the inserted title markup
nor the inserted content markup contains an angle bracket, and the
cached attribute (a future insertion source) contains none either. -/
def cardEscaped (card : ArticleCard) : Prop :=
  noAngle card.titleHtml ∧ noAngle card.contentDiv.html ∧
  ∀ btn, card.readMore = some btn → noAngle btn.dataFullContent

theorem cardEscaped_createArticleCard (a : Article) :
    cardEscaped (createArticleCard a) := by
  refine ⟨escapeHtml_noAngle a.title, escapeHtml_noAngle (shortContent a), ?_⟩
  intro btn hbtn
  unfold createArticleCard at hbtn
  simp only [] at hbtn
  split at hbtn
  · injection hbtn with hbtn'
    rw [← hbtn']
    exact escapeHtml_noAngle a.content
  · simp at hbtn

theorem cardEscaped_toggleReadMore (card : ArticleCard)
    (h : cardEscaped card) : cardEscaped (toggleReadMore card) := by
  obtain ⟨ht, hc, hb⟩ := h
  cases hrm : card.readMore with
  | none =>
      unfold toggleReadMore
      rw [hrm]
      exact ⟨ht, hc, hb⟩
  | some btn =>
      have hbtn := hb btn hrm
      unfold toggleReadMore
      rw [hrm]
      cases hcol : card.contentDiv.collapsed
      · simp only [hcol, Bool.false_eq_true, if_false]
        refine ⟨ht, ?_, ?_⟩
        · exact noAngle_append _ _ (noAngle_jsSubstring _ _ hbtn) noAngle_dots
        · intro b hbeq
          injection hbeq with hbeq'
          rw [← hbeq']
          exact hbtn
      · simp only [hcol, if_true]
        refine ⟨ht, hbtn, ?_⟩
        intro b hbeq
        injection hbeq with hbeq'
        rw [← hbeq']
        exact hbtn

/-- C8: the card inserts user text only in escaped form: the title
markup is `escapeHtml` of the title, the initial content markup is
`escapeHtml` of the (possibly truncated) content, and after any number
of toggles neither inserted markup contains an angle bracket — the
article's fields can never inject markup. -/
theorem user_text_escaped_no_injection (a : Article) (n : Nat) :
    (createArticleCard a).titleHtml = escapeHtml a.title ∧
    (createArticleCard a).contentDiv.html = escapeHtml (shortContent a) ∧
    noAngle ((toggleReadMore^[n] (createArticleCard a)).titleHtml) ∧
    noAngle ((toggleReadMore^[n] (createArticleCard a)).contentDiv.html) := by
  have hiter : ∀ m, cardEscaped (toggleReadMore^[m] (createArticleCard a)) := by
    intro m
    induction m with
    | zero => exact cardEscaped_createArticleCard a
    | succ m ih =>
        rw [Function.iterate_succ_apply']
        exact cardEscaped_toggleReadMore _ ih
  exact ⟨rfl, rfl, (hiter n).1, (hiter n).2.1⟩

/-- How many of the four state elements are visible. -/
def visibleCount (s : UiState) : Nat :=
  (if s.loading then 1 else 0) + (if s.articlesList then 1 else 0) +
  (if s.emptyState then 1 else 0) + (if s.errorState then 1 else 0)

/-- C9: after each render step of the client — displaying the list,
showing the empty state, or showing the error state — exactly one of the
four states {loading, list, empty, error} is visible. -/
theorem render_steps_show_exactly_one_state (articles : List Article)
    (s : UiState) :
    visibleCount (displayArticles articles s).1 = 1 ∧
    visibleCount (showEmptyState s) = 1 ∧
    visibleCount (showErrorState s) = 1 := by
  refine ⟨?_, rfl, rfl⟩
  unfold displayArticles
  split
  · rfl
  · rfl

/-- C10 (implicit): every failing fetch of the article list — network
error, non-OK HTTP status, or a `success:false` body — makes the client
show the empty state; the resulting display never has the error state
visible, and no execution of `loadArticles` produces the `showErrorState`
result (the function is never invoked). -/
theorem fetch_failure_shows_empty_state (r : FetchResult) (s : UiState) :
    (fetchFailed r = true → loadArticles r s = (showEmptyState s, [])) ∧
    (loadArticles r s).1.errorState = false ∧
    (loadArticles r s).1 ≠ showErrorState s := by
  have herr : (loadArticles r s).1.errorState = false := by
    cases r with
    | netError => rfl
    | response ok success data =>
        cases ok
        · rfl
        · cases success
          · rfl
          · show (displayArticles data s).1.errorState = false
            unfold displayArticles
            split
            · rfl
            · rfl
  refine ⟨?_, herr, ?_⟩
  · intro hf
    cases r with
    | netError => rfl
    | response ok success data =>
        cases ok
        · rfl
        · cases success
          · rfl
          · simp [fetchFailed] at hf
  · intro he
    rw [he] at herr
    simp [showErrorState] at herr

/-- Witness for C10 at a concrete network error. -/
theorem fetch_failure_shows_empty_state_witness :
    fetchFailed .netError = true ∧
    loadArticles .netError
        { loading := true, articlesList := false, emptyState := false,
          errorState := false }
      = (showEmptyState
          { loading := true, articlesList := false, emptyState := false,
            errorState := false }, []) :=
  ⟨by decide,
   (fetch_failure_shows_empty_state .netError
      { loading := true, articlesList := false, emptyState := false,
        errorState := false }).1 (by decide)⟩

end CybersecHub
